import Mathlib

/-!
Verification development for the `gennaro-dkg` crate (Gennaro distributed
key generation).  The definitions below are a shallow embedding of the
participant finite-state machine of `src/src/participant.rs` and its round
handlers (`src/src/participant/round*.rs`), of the Lagrange-coefficient
arithmetic, of participant construction, and of the byte-level payload
codec of `src/src/lib.rs`.

Modelling conventions:
* the scalar field of the curve is an arbitrary `Field F` with decidable
  equality; the elliptic-curve group is an arbitrary `AddCommGroup G`
  that is a module over `F` (scalar multiplication is `•`, the identity
  element is `0`);
* Rust `BTreeMap<usize, V>` values are embedded as sorted association
  lists `List (Nat × V)` with a sorted insert, so that map equality is
  list equality;
* the Merlin transcript hashes (`compute_pedersen_commitments_hash`,
  `compute_feldman_commitments_hash`) are external sponge computations;
  they are modelled as an arbitrary function parameter of type `HashFn`;
* Rust panics (out-of-bounds indexing, `expect` on `None`) are modelled
  by an outer `Option`: `none` is a panic;
* randomness is passed in explicitly: the random polynomial coefficients
  drawn inside `Participant::initialize` become list arguments.
-/

namespace GennaroDkg

/-- Protocol rounds.  `data.rs` (the revision shipped under `src/`) declares
`One`..`Five`; the participant FSM in `participant.rs` additionally matches a
`Round::Zero` (its `data.rs` revision is not under `src/`), so the embedding
carries all six states.  The Rust `derive(Ord)` order is declaration order. -/
inductive Round where
  | zero
  | one
  | two
  | three
  | four
  | five
deriving DecidableEq

/-- Numeric value used for the derived `Ord` comparisons on `Round`. -/
def Round.toNat : Round → Nat
  | .zero => 0
  | .one => 1
  | .two => 2
  | .three => 3
  | .four => 4
  | .five => 5

/-- `TryFrom<u8> for Round` from `data.rs`: bytes 1..5 decode, everything
else is the error string used by `Round::try_from`. -/
def Round.tryFromByte (b : Nat) : Except String Round :=
  if b = 1 then .ok .one
  else if b = 2 then .ok .two
  else if b = 3 then .ok .three
  else if b = 4 then .ok .four
  else if b = 5 then .ok .five
  else .error "Invalid round"

/-- `ParticipantType` from `data.rs`: a `Secret` participant contributes a
random scalar; a `Refresh` participant contributes zero. -/
inductive ParticipantType where
  | secret
  | refresh
deriving DecidableEq

/-- The error enum of `error.rs`, restricted to the variants the embedded
code paths can produce (`InitializationError`, `RoundError`,
`PostcardError`). -/
inductive DkgError where
  | initializationError (msg : String)
  | roundError (round : Round) (msg : String)
  | postcardError
deriving DecidableEq

deriving instance DecidableEq for Except

/-- `true` exactly on `Except.ok`. -/
def exceptIsOk : Except DkgError α → Bool
  | .ok _ => true
  | .error _ => false

/-- `true` exactly on `some (Except.ok _)` (a call that neither panicked
nor returned an error). -/
def isOkSome : Option (Except DkgError α) → Bool
  | some (.ok _) => true
  | _ => false

section Maps

variable {α : Type}

/-- Lookup in the association-list embedding of `BTreeMap<usize, V>`. -/
def mapLookup (k : Nat) : List (Nat × α) → Option α
  | [] => none
  | (k', v) :: rest => if k = k' then some v else mapLookup k rest

/-- `BTreeMap::contains_key`. -/
def mapContains (k : Nat) (m : List (Nat × α)) : Bool :=
  (mapLookup k m).isSome

/-- `BTreeMap::insert`, keeping the key order sorted so that map equality
is list equality (as for Rust `BTreeMap` equality). -/
def mapInsert (k : Nat) (v : α) : List (Nat × α) → List (Nat × α)
  | [] => [(k, v)]
  | (k', v') :: rest =>
    if k < k' then (k, v) :: (k', v') :: rest
    else if k = k' then (k, v) :: rest
    else (k', v') :: mapInsert k v rest

end Maps

variable {F : Type} [Field F] [DecidableEq F]
variable {G : Type} [AddCommGroup G] [Module F G] [DecidableEq G]

/-- `SumOfProducts::sum_of_products` (trait `elliptic-curve-tools`): a
multi-scalar multiplication `Σᵢ sᵢ • Pᵢ` over scalar/point pairs. -/
def sumOfProducts (l : List (F × G)) : G :=
  (l.map fun p => p.1 • p.2).sum

/-- The Horner evaluation used for the share values in
`Participant::initialize`:
`polynomial.iter().rfold(ZERO, |acc, c| acc * share_id + c)`. -/
def polyEval (coeffs : List F) (x : F) : F :=
  coeffs.foldr (fun c acc => acc * x + c) 0

/-- One step of the loop body of `Participant::lagrange`: skip `x_j` equal
to `share`, otherwise multiply `x_j` into the numerator and
`x_j - share` into the denominator. -/
def lagrangeStep (share : F) (nd : F × F) (xj : F) : F × F :=
  if xj = share then nd else (nd.1 * xj, nd.2 * (xj - share))

/-- `Participant::lagrange` (`participant.rs:464-476`).  The final
`den.invert().expect(..)` panics exactly when the accumulated denominator
is zero; the panic is modelled as `none`. -/
def lagrange (share : F) (sharesIds : List F) : Option F :=
  let nd := sharesIds.foldl (lagrangeStep share) (1, 1)
  if nd.2 = 0 then none else some (nd.1 * nd.2⁻¹)

/-- The numerator of the spec-level Lagrange coefficient
`Λ_x(S) = Π_{y ∈ S, y ≠ x} y / (y − x)`. -/
def lagrangeNumSpec (x : F) (S : List F) : F :=
  (S.filter fun y => decide (y ≠ x)).prod

/-- The denominator of the spec-level Lagrange coefficient. -/
def lagrangeDenSpec (x : F) (S : List F) : F :=
  ((S.filter fun y => decide (y ≠ x)).map fun y => y - x).prod

/-- A share `(identifier, value)` (`vsss_rs::DefaultShare` /
`SecretShare<G::Scalar>`: an evaluation point paired with the polynomial
value there). -/
structure SecretShare (F : Type) where
  identifier : F
  value : F
deriving DecidableEq

instance [Field F] : Inhabited (SecretShare F) := ⟨0, 0⟩

/-- The commit payload handled by `participant/round0.rs`
(`Round0Data<G>`): ordinal, id, participant type and the two 32-byte
commitment hashes (hashes are byte lists here). -/
structure Round0Data (F : Type) where
  senderOrdinal : Nat
  senderId : F
  senderType : ParticipantType
  pedersenCommitmentHash : List Nat
  feldmanCommitmentHash : List Nat
deriving DecidableEq

instance [Field F] : Inhabited (Round0Data F) := ⟨0, 0, .secret, [], []⟩

/-- `Round1Data<G>` from `data.rs`: the round-1 commit payload (same
shape as `Round0Data`).  `receive_round2data` and `receive_round3data`
read the stored sender type and commitment hashes from it. -/
structure Round1Data (F : Type) where
  senderOrdinal : Nat
  senderId : F
  senderType : ParticipantType
  pedersenCommitmentHash : List Nat
  feldmanCommitmentHash : List Nat
deriving DecidableEq

instance [Field F] : Inhabited (Round1Data F) := ⟨0, 0, .secret, [], []⟩

/-- `Round2Data<G>` from `data.rs`: the reveal-and-share payload —
generators, the Pedersen verifier vector, and the two per-recipient
shares. -/
structure Round2Data (F G : Type) where
  senderOrdinal : Nat
  senderId : F
  messageGenerator : G
  blinderGenerator : G
  pedersenCommitments : List G
  secretShare : SecretShare F
  blindShare : SecretShare F
deriving DecidableEq

instance [Field F] [AddCommGroup G] : Inhabited (Round2Data F G) :=
  ⟨0, 0, 0, 0, [], default, default⟩

/-- `Round3Data<G>` from `data.rs`: the echo-broadcast payload — the
Feldman verifier vector and the sender's view of the valid-participant
map. -/
structure Round3Data (F G : Type) where
  senderOrdinal : Nat
  senderId : F
  feldmanCommitments : List G
  validParticipantIds : List (Nat × F)
deriving DecidableEq

/-- `Round4Data<G>` from `data.rs`: the final echo payload — the protocol
transcript hash and the computed public key. -/
structure Round4Data (F G : Type) where
  senderOrdinal : Nat
  senderId : F
  transcriptHash : List Nat
  publicKey : G
deriving DecidableEq

/-- The type of `compute_pedersen_commitments_hash` /
`compute_feldman_commitments_hash` (`participant.rs:422-462`).  These
run an external Merlin transcript over
(participant type, ordinal, id, threshold, commitment vector), so they
are kept abstract: theorems hold for every such function. -/
def HashFn (F G : Type) : Type :=
  ParticipantType → Nat → F → Nat → List G → List Nat

/-- The participant FSM state, field for field the struct
`Participant<I, G>` of `participant.rs:49-79`.  The Merlin `transcript`
field is omitted (external sponge state, never branched on by the
embedded handlers); the type parameter `I` (secret/refresh
implementation) is represented by its `ParticipantType`. -/
structure ParticipantState (F G : Type) where
  ordinal : Nat
  id : F
  threshold : Nat
  limit : Nat
  round : Round
  messageGenerator : G
  blinderGenerator : G
  secretShare : F
  secretShares : List (F × F)
  blindShare : F
  blinderShares : List (F × F)
  feldmanVerifierSet : List G
  pedersenVerifierSet : List G
  publicKey : G
  blindKey : G
  powersOfI : List F
  receivedRound0Data : List (Nat × Round0Data F)
  receivedRound1Data : List (Nat × Round1Data F)
  receivedRound2Data : List (Nat × Round2Data F G)
  receivedRound3Data : List (Nat × Round3Data F G)
  receivedRound4Data : List (Nat × Round4Data F G)
  validParticipantIds : List (Nat × F)
  allParticipantIds : List (Nat × F)
  participantType : ParticipantType
deriving DecidableEq

/-- `Participant::get_secret_share` (`participant.rs:315-321`): `Some`
as soon as `self.round >= Round::Two`. -/
def ParticipantState.getSecretShare (st : ParticipantState F G) : Option F :=
  if Round.two.toNat ≤ st.round.toNat then some st.secretShare else none

/-- `Participant::get_blind_share` (`participant.rs:329-335`). -/
def ParticipantState.getBlindShare (st : ParticipantState F G) : Option F :=
  if Round.two.toNat ≤ st.round.toNat then some st.blindShare else none

/-- `Participant::get_public_key` (`participant.rs:340-346`): `Some`
only in the terminal round `Five`. -/
def ParticipantState.getPublicKey (st : ParticipantState F G) : Option G :=
  if st.round = Round.five then some st.publicKey else none

/-- `SecretParticipant::get_secret_share` of the older revision
(`secret_participant.rs:135-141`): gated on `round == Round::Five`. -/
def SecretParticipantV1.getSecretShare (round : Round) (secretShare : F) : Option F :=
  if round = Round.five then some secretShare else none

/-- `Participant::check_sending_participant_id`
(`participant.rs:398-420`): the sender ordinal must be a known
participant, the sender id must be non-zero and different from ours. -/
def checkSendingParticipantId (st : ParticipantState F G) (round : Round)
    (senderIndex : Nat) (senderId : F) : Except DkgError Unit :=
  if ¬ mapContains senderIndex st.allParticipantIds then
    .error (.roundError round "Unknown sender index")
  else if senderId = 0 then
    .error (.roundError round "Sender id is zero")
  else if st.id = senderId then
    .error (.roundError round "Sender id is equal to our id")
  else
    .ok ()

/-- `SecretParticipantImpl::check_feldman_verifier`
(`participant.rs:494-496`): the verifier must not be the identity. -/
def SecretParticipantImpl.checkFeldmanVerifier (v : G) : Bool :=
  decide (¬ v = 0)

/-- `RefreshParticipantImpl::check_feldman_verifier`
(`participant.rs:518-520`): the verifier must be the identity. -/
def RefreshParticipantImpl.checkFeldmanVerifier (v : G) : Bool :=
  decide (v = 0)

/-- `Participant::receive_round0data` (`participant/round0.rs:59-88`):
store a commit payload after the round guard, duplicate check, sender
check, and the all-zero checks on both hashes (`ct_is_zero`). -/
def receiveRound0Data (st : ParticipantState F G) (data : Round0Data F) :
    Except DkgError (ParticipantState F G) :=
  if Round.one.toNat < st.round.toNat then
    .error (.roundError .zero "Invalid round payload received")
  else if mapContains data.senderOrdinal st.receivedRound0Data then
    .error (.roundError .zero "Sender has already sent data")
  else
    match checkSendingParticipantId st .zero data.senderOrdinal data.senderId with
    | .error e => .error e
    | .ok _ =>
      if data.pedersenCommitmentHash.all fun b => b == 0 then
        .error (.roundError .zero "Pedersen commitment hash is zero")
      else if data.feldmanCommitmentHash.all fun b => b == 0 then
        .error (.roundError .zero "Feldman commitment hash is zero")
      else
        .ok { st with receivedRound0Data :=
                mapInsert data.senderOrdinal data st.receivedRound0Data }

/-- Modelled from the spec: the Round 1 commit receiver.  The tree under
`src/` lacks it (`participant/round1.rs` belongs to an older revision in
which round 1 is the reveal round), but `participant.rs` dispatches tag
`One` to it and `receive_round2data` reads the commit data it stores.
Per §4.6 of the spec it mirrors the round-0 commit receiver with the
round guard and maps shifted by one. -/
def receiveRound1Data (st : ParticipantState F G) (data : Round1Data F) :
    Except DkgError (ParticipantState F G) :=
  if Round.two.toNat < st.round.toNat then
    .error (.roundError .one "Invalid round payload received")
  else if mapContains data.senderOrdinal st.receivedRound1Data then
    .error (.roundError .one "Sender has already sent data")
  else
    match checkSendingParticipantId st .one data.senderOrdinal data.senderId with
    | .error e => .error e
    | .ok _ =>
      if data.pedersenCommitmentHash.all fun b => b == 0 then
        .error (.roundError .one "Pedersen commitment hash is zero")
      else if data.feldmanCommitmentHash.all fun b => b == 0 then
        .error (.roundError .one "Feldman commitment hash is zero")
      else
        .ok { st with receivedRound1Data :=
                mapInsert data.senderOrdinal data st.receivedRound1Data }

/-- `Participant::receive_round2data` (`participant/round2.rs:76-170`):
validate and store a reveal-and-share payload.  In order: round guard,
duplicate check, sender check, presence of the sender's commit payload,
verifier-vector shape checks, identity checks, the Pedersen commitment
hash check against the stored commit, and finally the constant-time share
check `lhs - rhs == identity` with
`lhs = G_s · secret_share + G_r · blind_share` and
`rhs = sum_of_products(powers_of_i, pedersen_commitments)`.
Rust indexes `received_round1_data[&ordinal]` directly, which is guarded
by the preceding `contains_key` check; the embedding therefore uses the
(never-materialised) `getD default`.  No field of `self` is written
before any of the early `return Err` exits, so an error result leaves the
state unchanged. -/
def receiveRound2Data (Hped : HashFn F G) (st : ParticipantState F G)
    (data : Round2Data F G) : Except DkgError (ParticipantState F G) :=
  if Round.three.toNat < st.round.toNat then
    .error (.roundError .two "Invalid round payload received")
  else if mapContains data.senderOrdinal st.receivedRound2Data then
    .error (.roundError .two "Sender has already sent data")
  else
    match checkSendingParticipantId st .two data.senderOrdinal data.senderId with
    | .error e => .error e
    | .ok _ =>
      if ¬ mapContains data.senderOrdinal st.receivedRound1Data then
        .error (.roundError .two "Sender has not sent round 0 data")
      else if data.pedersenCommitments.isEmpty then
        .error (.roundError .two "Pedersen commitments are empty")
      else if data.pedersenCommitments.length ≠ st.threshold then
        .error (.roundError .two "Pedersen commitments length is not equal to threshold")
      else if data.messageGenerator = 0 then
        .error (.roundError .two "Message generator is the identity point")
      else if data.blinderGenerator = 0 then
        .error (.roundError .two "Blinder generator is the identity point")
      else if data.pedersenCommitments.any fun c => decide (c = 0) then
        .error (.roundError .two "Pedersen commitments contain the identity point")
      else if Hped ((mapLookup data.senderOrdinal st.receivedRound1Data).getD default).senderType
              data.senderOrdinal data.senderId st.threshold data.pedersenCommitments
            ≠ ((mapLookup data.senderOrdinal st.receivedRound1Data).getD default).pedersenCommitmentHash then
        .error (.roundError .two "Pedersen commitment hash does not match")
      else if ¬ (data.secretShare.value • st.messageGenerator
                  + data.blindShare.value • st.blinderGenerator
                  - sumOfProducts (st.powersOfI.zip data.pedersenCommitments) = 0) then
        .error (.roundError .two "The share does not verify with the given commitments")
      else
        .ok { st with
              validParticipantIds :=
                mapInsert data.senderOrdinal data.senderId st.validParticipantIds,
              receivedRound2Data :=
                mapInsert data.senderOrdinal data st.receivedRound2Data }

/-- `Participant::receive_round3data` (`participant/round3.rs:59-178`):
validate and store an echo-broadcast payload.  In order: round guard,
duplicate check, sender check, the echo check (the sender's
`valid_participant_ids` must equal ours), membership of the sender in the
valid set, presence of the sender's round-1 and round-2 payloads,
Feldman-vector shape checks, identity checks on entries `1..`, the
participant-type check on entry `0`, the Feldman commitment hash check
against the stored commit, and the share check
`G_s · secret_share_from_round2 - sum_of_products(powers_of_i,
feldman_commitments) == identity`.  As in `receive_round2data`, the map
indexings are guarded by `contains_key` checks, and no state is written
before any early `return Err` — in particular `valid_participant_ids` is
never modified by this function. -/
def receiveRound3Data (Hfeld : HashFn F G) (st : ParticipantState F G)
    (data : Round3Data F G) : Except DkgError (ParticipantState F G) :=
  if Round.four.toNat < st.round.toNat then
    .error (.roundError .three "Invalid round payload received")
  else if mapContains data.senderOrdinal st.receivedRound3Data then
    .error (.roundError .three "Sender has already sent data")
  else
    match checkSendingParticipantId st .three data.senderOrdinal data.senderId with
    | .error e => .error e
    | .ok _ =>
      if st.validParticipantIds ≠ data.validParticipantIds then
        .error (.roundError .three "Valid participant ids do not match")
      else if ¬ mapContains data.senderOrdinal st.validParticipantIds then
        .error (.roundError .three "Not a valid participant")
      else if ¬ mapContains data.senderOrdinal st.receivedRound1Data then
        .error (.roundError .three "Sender didn't send any previous round 0 data")
      else if ¬ mapContains data.senderOrdinal st.receivedRound2Data then
        .error (.roundError .three "Sender didn't send any previous round 1 data")
      else if data.feldmanCommitments.isEmpty then
        .error (.roundError .three "Feldman commitments are empty")
      else if data.feldmanCommitments.length ≠ st.threshold then
        .error (.roundError .three "Feldman commitments length is not equal to threshold")
      else if (data.feldmanCommitments.drop 1).any fun c => decide (c = 0) then
        .error (.roundError .three "Feldman commitments contain the identity point")
      else if ¬ (match ((mapLookup data.senderOrdinal st.receivedRound1Data).getD default).senderType with
                 | ParticipantType.secret =>
                     SecretParticipantImpl.checkFeldmanVerifier (data.feldmanCommitments.getD 0 0)
                 | ParticipantType.refresh =>
                     RefreshParticipantImpl.checkFeldmanVerifier (data.feldmanCommitments.getD 0 0)) = true then
        .error (.roundError .three "Feldman commitment is not a valid verifier")
      else if Hfeld ((mapLookup data.senderOrdinal st.receivedRound1Data).getD default).senderType
              data.senderOrdinal data.senderId st.threshold data.feldmanCommitments
            ≠ ((mapLookup data.senderOrdinal st.receivedRound1Data).getD default).feldmanCommitmentHash then
        .error (.roundError .three "Feldman commitment hash does not match")
      else if ¬ (((mapLookup data.senderOrdinal st.receivedRound2Data).getD default).secretShare.value
                    • st.messageGenerator
                  - sumOfProducts (st.powersOfI.zip data.feldmanCommitments) = 0) then
        .error (.roundError .three "The share does not verify with the given commitments")
      else
        .ok { st with
              receivedRound3Data :=
                mapInsert data.senderOrdinal data st.receivedRound3Data }

/-- Modelled from the spec: the round-4 echo receiver
(`receive_round4data`, dispatched by `participant.rs:378-381` but not
under `src/`; the `participant/round4.rs` file belongs to an older
revision).  Per §4.6 "Round 5" of the spec the receiver checks origin and
that the echoed public key equals ours; the transcript-hash comparison is
omitted because the state in `src/` holds no transcript hash field. -/
def receiveRound4Data (st : ParticipantState F G) (data : Round4Data F G) :
    Except DkgError (ParticipantState F G) :=
  if mapContains data.senderOrdinal st.receivedRound4Data then
    .error (.roundError .four "Sender has already sent data")
  else
    match checkSendingParticipantId st .four data.senderOrdinal data.senderId with
    | .error e => .error e
    | .ok _ =>
      if data.publicKey ≠ st.publicKey then
        .error (.roundError .four "Public key does not match")
      else
        .ok { st with receivedRound4Data :=
                mapInsert data.senderOrdinal data st.receivedRound4Data }

/-- The payload decoders used by `Participant::receive`
(`postcard::from_bytes::<RoundXData<G>>`): external deserializers, kept
abstract. -/
structure Decoders (F G : Type) where
  round0 : List Nat → Option (Round0Data F)
  round1 : List Nat → Option (Round1Data F)
  round2 : List Nat → Option (Round2Data F G)
  round3 : List Nat → Option (Round3Data F G)
  round4 : List Nat → Option (Round4Data F G)

/-- `Participant::receive` (`participant.rs:359-384`).  The first line
`Round::try_from(data[0])` indexes the byte slice unconditionally: on an
empty slice this is an out-of-bounds panic, modelled as `none`.  On a
non-empty slice the tag byte selects the round: an unknown tag is an
`InitializationError`, a payload that fails to decode is a postcard
error, otherwise the matching round handler runs; the `Round::Five`
catch-all is the "Protocol is complete" error. -/
def receive (dec : Decoders F G) (Hped Hfeld : HashFn F G)
    (st : ParticipantState F G) (data : List Nat) :
    Option (Except DkgError (ParticipantState F G)) :=
  match data with
  | [] => none
  | b :: rest =>
    some (match Round.tryFromByte b with
      | .error e => .error (.initializationError e)
      | .ok Round.zero =>
        match dec.round0 rest with
        | none => .error .postcardError
        | some payload => receiveRound0Data st payload
      | .ok Round.one =>
        match dec.round1 rest with
        | none => .error .postcardError
        | some payload => receiveRound1Data st payload
      | .ok Round.two =>
        match dec.round2 rest with
        | none => .error .postcardError
        | some payload => receiveRound2Data Hped st payload
      | .ok Round.three =>
        match dec.round3 rest with
        | none => .error .postcardError
        | some payload => receiveRound3Data Hfeld st payload
      | .ok Round.four =>
        match dec.round4 rest with
        | none => .error .postcardError
        | some payload => receiveRound4Data st payload
      | .ok Round.five => .error (.roundError .five "Protocol is complete"))

/-- `Parameters<G, P>` (`parameters.rs`): threshold, limit, the two
generators, and the participant-id generator
(`participant_number_generator.get_participant_id(i)` becomes `idGen i`).
`Parameters::new` performs no validation; all checks happen in
`Participant::initialize`. -/
structure Parameters (F G : Type) where
  threshold : Nat
  limit : Nat
  messageGenerator : G
  blinderGenerator : G
  idGen : Nat → F

/-- The verifier sets of `Participant::initialize`
(`participant.rs:180-191`): two identity-filled vectors of length
`threshold`, overwritten pointwise while zipping over the two polynomial
coefficient vectors — entries beyond the shorter polynomial stay at the
identity.  `feldman[j] = G_s · f_j`,
`pedersen[j] = feldman[j] + G_r · f'_j`. -/
def feldmanVerifiers (p : Parameters F G) (secretPoly blinderPoly : List F) : List G :=
  (List.range p.threshold).map fun j =>
    match (secretPoly.zip blinderPoly).get? j with
    | some c => c.1 • p.messageGenerator
    | none => 0

/-- The Pedersen verifier vector of `Participant::initialize` (see
`feldmanVerifiers`). -/
def pedersenVerifiers (p : Parameters F G) (secretPoly blinderPoly : List F) : List G :=
  (List.range p.threshold).map fun j =>
    match (secretPoly.zip blinderPoly).get? j with
    | some c => c.1 • p.messageGenerator + c.2 • p.blinderGenerator
    | none => 0

/-- The share loop of `Participant::initialize`
(`participant.rs:196-229`), iterating `i` over `0..limit` with `fuel`
remaining steps: duplicate-id detection (byte-representation equality is
field equality), ordinal capture at `share_id == id`, the
`all_participant_ids` map, and the Horner evaluations of both
polynomials.  Returns `(secret_shares, blinder_shares,
all_participant_ids, ordinal)`. -/
def sharesLoop (p : Parameters F G) (id : F) (secretPoly blinderPoly : List F) :
    Nat → Nat → List (F × F) → List (F × F) → List F → List (Nat × F) → Nat →
    Except DkgError (List (F × F) × List (F × F) × List (Nat × F) × Nat)
  | 0, _, ss, bs, _, allIds, ord => .ok (ss, bs, allIds, ord)
  | fuel + 1, i, ss, bs, seen, allIds, ord =>
    let shareId := p.idGen i
    if shareId ∈ seen then
      .error (.initializationError "Duplicate id found")
    else
      sharesLoop p id secretPoly blinderPoly fuel (i + 1)
        (ss ++ [(shareId, polyEval secretPoly shareId)])
        (bs ++ [(shareId, polyEval blinderPoly shareId)])
        (shareId :: seen)
        (mapInsert i shareId allIds)
        (if shareId = id then i else ord)

/-- The loop `for i in 2..threshold` of `participant.rs:238-240`:
`powers_of_i[i] = powers_of_i[i-1] * id`, with `fuel` remaining steps. -/
def powersLoop (id : F) : Nat → Nat → List F → List F
  | 0, _, v => v
  | fuel + 1, i, v => powersLoop id fuel (i + 1) (v.set i (v.getD (i - 1) 0 * id))

/-- `participant.rs:236-240`: `powers_of_i = vec![ONE; threshold]` then
`powers_of_i[1] = id` — an out-of-bounds panic (modelled as `none`)
whenever `threshold < 2`, since the vector has length `threshold` — then
the multiplication loop from index 2. -/
def computePowersOfI (id : F) (threshold : Nat) : Option (List F) :=
  if 1 < threshold then
    some (powersLoop id (threshold - 2) 2 ((List.replicate threshold (1 : F)).set 1 id))
  else
    none

/-- `Participant::initialize` (`participant.rs:144-280`), with the
randomness made explicit: `secretRandom`/`blinderRandom` are the
coefficients drawn by `Polynomial::fill` beyond the constant terms
`secret`/`blinder`, and `ptype` stands for the `ParticipantImpl` type
parameter.  In source order: the four parameter checks, the polynomials,
the verifier sets, the share loop with duplicate detection, the
ordinal-presence check, `powers_of_i` (whose index-1 write panics when
`threshold == 1`), the commitment validity checks, and the assembled
state (`round` starts at `One`).  The outer `Option` is `none` exactly
when the Rust code panics. -/
def initParticipant (id : F) (p : Parameters F G) (ptype : ParticipantType)
    (secret blinder : F) (secretRandom blinderRandom : List F) :
    Option (Except DkgError (ParticipantState F G)) :=
  if p.limit < p.threshold then
    some (.error (.initializationError "Threshold greater than limit"))
  else if p.threshold < 1 then
    some (.error (.initializationError "Threshold less than 1"))
  else if p.messageGenerator = 0 then
    some (.error (.initializationError "Invalid message generator"))
  else if p.blinderGenerator = 0 then
    some (.error (.initializationError "Invalid blinder generator"))
  else
    match sharesLoop p id (secret :: secretRandom) (blinder :: blinderRandom)
        p.limit 0 [] [] [] [] 0 with
    | .error e => some (.error e)
    | .ok (ss, bs, allIds, ord) =>
      if ¬ mapContains ord allIds then
        some (.error (.initializationError "Id not found in participant ids"))
      else
        match computePowersOfI id p.threshold with
        | none => none
        | some powers =>
          if (pedersenVerifiers p (secret :: secretRandom) (blinder :: blinderRandom)).any
                (fun c => decide (c = 0))
              ∨ ((feldmanVerifiers p (secret :: secretRandom) (blinder :: blinderRandom)).drop 1).any
                (fun c => decide (c = 0))
              ∨ ¬ (match ptype with
                   | ParticipantType.secret =>
                       SecretParticipantImpl.checkFeldmanVerifier
                         ((feldmanVerifiers p (secret :: secretRandom) (blinder :: blinderRandom)).getD 0 0)
                   | ParticipantType.refresh =>
                       RefreshParticipantImpl.checkFeldmanVerifier
                         ((feldmanVerifiers p (secret :: secretRandom) (blinder :: blinderRandom)).getD 0 0)) = true then
            some (.error (.initializationError "Invalid commitments"))
          else
            some (.ok {
              ordinal := ord
              id := id
              threshold := p.threshold
              limit := p.limit
              round := .one
              messageGenerator := p.messageGenerator
              blinderGenerator := p.blinderGenerator
              secretShare := 0
              secretShares := ss
              blindShare := 0
              blinderShares := bs
              feldmanVerifierSet :=
                feldmanVerifiers p (secret :: secretRandom) (blinder :: blinderRandom)
              pedersenVerifierSet :=
                pedersenVerifiers p (secret :: secretRandom) (blinder :: blinderRandom)
              publicKey := 0
              blindKey := 0
              powersOfI := powers
              receivedRound0Data := []
              receivedRound1Data := []
              receivedRound2Data := []
              receivedRound3Data := []
              receivedRound4Data := []
              validParticipantIds := []
              allParticipantIds := allIds
              participantType := ptype })

/-- `Participant::with_secret` (`participant.rs:132-142`): the dealt
secret is `share * Self::lagrange(share, shares_ids)` — note that the
`share` argument (the share *value* from the previous run) is also the
point at which `lagrange` is evaluated — followed by `initialize`.
A `lagrange` panic propagates. -/
def withSecret (id : F) (p : Parameters F G) (ptype : ParticipantType)
    (share : F) (sharesIds : List F) (blinder : F)
    (secretRandom blinderRandom : List F) :
    Option (Except DkgError (ParticipantState F G)) :=
  match lagrange share sharesIds with
  | none => none
  | some lam => initParticipant id p ptype (share * lam) blinder secretRandom blinderRandom

/-- `uint_zigzag::Uint::MAX_BYTES`: the maximal byte length of the
variable-length integer encoding (19 for a `u128`), the size of the
stack buffer in `deserialize_g_vec`. -/
def uintMaxBytes : Nat := 19

/-- `serialize_g_vec` (`lib.rs:478-504`), non-human-readable path: the
byte stream handed to the serializer is the `uint_zigzag` encoding of the
vector length followed by the concatenated group-element encodings.
`uintEnc` is the external `uint_zigzag::Uint::to_vec`, `gRepr` the
external `GroupEncoding::to_bytes`. -/
def serializeGVec {G : Type} (uintEnc : Nat → List Nat) (gRepr : G → List Nat)
    (v : List G) : List Nat :=
  uintEnc v.length ++ (v.map gRepr).flatten

/-- `deserialize_g_vec` (`lib.rs:506-591`), non-human-readable path
(`visit_seq` of `NonReadableVisitor`), byte for byte.  The first
`while let Some(b)` loop copies the *entire* element stream into the
19-byte `buffer` (the `if i == Uint::MAX_BYTES break` test sits after the
assignment and after index 18 can never fire before `buffer[19]` is
written), so a stream longer than 19 bytes is an out-of-bounds panic
(`none`).  Otherwise the loop exhausts the stream; the length prefix is
peeked and parsed (`uintPeek` / `uintTryFrom` model the external
`Uint::peek` / `Uint::try_from`); `repr[..MAX_BYTES - cnt]` is filled
from the buffer (a slice panic when the group encoding `wg` is shorter
than that); and the second `while let` loop then finds the stream already
empty, so `out` stays `[]` and any non-zero parsed element count fails
the final length comparison (`invalid_length`, modelled as
`some (.error ())`). -/
def deserializeGVec {G : Type} (uintPeek : List Nat → Option Nat)
    (uintTryFrom : List Nat → Option Nat) (wg : Nat) (bs : List Nat) :
    Option (Except Unit (List G)) :=
  if uintMaxBytes + 1 ≤ bs.length then
    none
  else
    let buffer := bs ++ List.replicate (uintMaxBytes - bs.length) 0
    match uintPeek buffer with
    | none => some (.error ())
    | some cntSize =>
      match uintTryFrom (buffer.take cntSize) with
      | none => some (.error ())
      | some points =>
        if wg < uintMaxBytes - cntSize then
          none
        else if points ≠ 0 then
          some (.error ())
        else
          some (.ok [])

end GennaroDkg

namespace GennaroDkg

/-! ### Concrete instantiation

The scalar field and the group are both instantiated with `ZMod 11`
(the group written additively, scalar action = multiplication), which
satisfies every capability the embedding requires of the external curve
library.  Witnesses and counterexamples are evaluated over it. -/

instance : Fact (Nat.Prime 11) := ⟨by norm_num⟩

/-- The concrete scalar field / group for witnesses. -/
abbrev FF : Type := ZMod 11

/-- A concrete commitment hash function returning `[7]` always. -/
def hashSeven : HashFn FF FF := fun _ _ _ _ _ => [7]

/-- A concrete commitment hash function returning `[9]` always. -/
def hashNine : HashFn FF FF := fun _ _ _ _ _ => [9]

/-- Trivial payload decoders (always failing); `receive` still answers
with a postcard error on them. -/
def decNone : Decoders FF FF :=
  ⟨fun _ => none, fun _ => none, fun _ => none, fun _ => none, fun _ => none⟩

/-- A concrete pre-round-2 participant state (`t = 2`, `n = 3`,
ids `1,2,3`, own id `1` at ordinal `0`, both generators `1`,
`powers_of_i = [1, id]`), holding the round-1 commit of peer ordinal `1`
whose commitment hashes are `[7]`. -/
def stRound2 : ParticipantState FF FF where
  ordinal := 0
  id := 1
  threshold := 2
  limit := 3
  round := .two
  messageGenerator := 1
  blinderGenerator := 1
  secretShare := 0
  secretShares := []
  blindShare := 0
  blinderShares := []
  feldmanVerifierSet := []
  pedersenVerifierSet := []
  publicKey := 0
  blindKey := 0
  powersOfI := [1, 1]
  receivedRound0Data := []
  receivedRound1Data := [(1, ⟨1, 2, .secret, [7], [7]⟩)]
  receivedRound2Data := []
  receivedRound3Data := []
  receivedRound4Data := []
  validParticipantIds := [(0, 1)]
  allParticipantIds := [(0, 1), (1, 2), (2, 3)]
  participantType := .secret

/-- A round-2 payload from peer ordinal `1` (id `2`) whose shares satisfy
the Pedersen check against `stRound2`. -/
def dataRound2Good : Round2Data FF FF :=
  ⟨1, 2, 1, 1, [1, 1], ⟨1, 1⟩, ⟨1, 1⟩⟩

/-- A concrete round-3-receiving participant state (`t = 2`, `n = 2`,
ids `1,2`, own id `1`, round `Four`): round-1 commits (hashes `[5]`/`[7]`)
and round-2 payloads of both ordinals stored,
`valid_participant_ids = {0 ↦ 1, 1 ↦ 2}`, own round-3 payload stored. -/
def stRound3 : ParticipantState FF FF where
  ordinal := 0
  id := 1
  threshold := 2
  limit := 2
  round := .four
  messageGenerator := 1
  blinderGenerator := 1
  secretShare := 0
  secretShares := []
  blindShare := 0
  blinderShares := []
  feldmanVerifierSet := []
  pedersenVerifierSet := []
  publicKey := 0
  blindKey := 0
  powersOfI := [1, 1]
  receivedRound0Data := []
  receivedRound1Data := [(0, ⟨0, 1, .secret, [5], [7]⟩), (1, ⟨1, 2, .secret, [5], [7]⟩)]
  receivedRound2Data :=
    [(0, ⟨0, 1, 1, 1, [1, 1], ⟨1, 2⟩, ⟨1, 2⟩⟩), (1, ⟨1, 2, 1, 1, [1, 1], ⟨1, 2⟩, ⟨1, 2⟩⟩)]
  receivedRound3Data := [(0, ⟨0, 1, [1, 1], [(0, 1), (1, 2)]⟩)]
  receivedRound4Data := []
  validParticipantIds := [(0, 1), (1, 2)]
  allParticipantIds := [(0, 1), (1, 2)]
  participantType := .secret

/-- A round-3 payload from peer ordinal `1` that passes every check of
`receive_round3data` against `stRound3` under `hashSeven`. -/
def dataRound3Good : Round3Data FF FF :=
  ⟨1, 2, [1, 1], [(0, 1), (1, 2)]⟩

/-- A round-3 payload from peer ordinal `1` whose
`valid_participant_ids` disagrees with `stRound3` (the echo-broadcast
mismatch). -/
def dataRound3Echo : Round3Data FF FF :=
  ⟨1, 2, [1, 1], [(0, 1)]⟩

/-- Concrete parameters `t = 2`, `n = 2`, ids `1, 2`, and *equal*
generators (`G_s = G_r = 1`, neither the identity). -/
def paramsTwoOfTwo : Parameters FF FF :=
  ⟨2, 2, 1, 1, fun i => (i : FF) + 1⟩

/-- Concrete parameters `t = 1`, `n = 1` (the boundary case), id `1`. -/
def paramsOneOfOne : Parameters FF FF :=
  ⟨1, 1, 1, 1, fun i => (i : FF) + 1⟩

/-- Concrete parameters with `t = 3 > n = 2`. -/
def paramsBadThreshold : Parameters FF FF :=
  ⟨3, 2, 1, 1, fun i => (i : FF) + 1⟩

/-- Concrete parameters with an identity message generator. -/
def paramsZeroGen : Parameters FF FF :=
  ⟨2, 2, 0, 1, fun i => (i : FF) + 1⟩

/-- The stored Feldman verifier at index 0 of a successful construction
result (`none` on a panic or an error result). -/
def okFeldman0 {F G : Type} [AddCommGroup G] :
    Option (Except DkgError (ParticipantState F G)) → Option G
  | some (.ok st) => some (st.feldmanVerifierSet.getD 0 0)
  | _ => none

/-- Concrete `uint_zigzag` length encoding stand-in (single byte; only
applied to lengths below 128 here). -/
def uintEncC (n : Nat) : List Nat := [n % 128]

/-- Concrete `Uint::peek` stand-in: a first byte below 128 is a one-byte
prefix. -/
def uintPeekC (bs : List Nat) : Option Nat :=
  if bs.getD 0 0 < 128 then some 1 else none

/-- Concrete `Uint::try_from` stand-in. -/
def uintTryFromC (bs : List Nat) : Option Nat := bs.head?

/-- Concrete 32-byte group-element encoding stand-in for `ZMod 11`. -/
def gReprC (g : FF) : List Nat := g.val :: List.replicate 31 0

end GennaroDkg

namespace GennaroDkg

/-! ### Helper lemmas -/

section Lemmas

variable {α : Type}
variable {F : Type} [Field F] [DecidableEq F]
variable {G : Type} [AddCommGroup G] [Module F G] [DecidableEq G]

theorem mapLookup_mapInsert_self (k : Nat) (v : α) (m : List (Nat × α)) :
    mapLookup k (mapInsert k v m) = some v := by
  induction m with
  | nil => simp [mapInsert, mapLookup]
  | cons hd tl ih =>
    obtain ⟨k', v'⟩ := hd
    by_cases h1 : k < k'
    · simp [mapInsert, h1, mapLookup]
    · by_cases h2 : k = k'
      · simp [mapInsert, h1, h2, mapLookup]
      · simp [mapInsert, h1, h2, mapLookup, ih]

theorem lagrange_foldl (share : F) (S : List F) :
    ∀ a b : F, S.foldl (lagrangeStep share) (a, b)
      = (a * lagrangeNumSpec share S, b * lagrangeDenSpec share S) := by
  induction S with
  | nil => intro a b; simp [lagrangeNumSpec, lagrangeDenSpec]
  | cons x xs ih =>
    intro a b
    by_cases hx : x = share
    · subst hx
      simp only [List.foldl_cons, lagrangeStep, if_true]
      rw [ih a b]
      simp [lagrangeNumSpec, lagrangeDenSpec, List.filter_cons]
    · simp only [List.foldl_cons, lagrangeStep, if_neg hx]
      rw [ih (a * x) (b * (x - share))]
      simp only [lagrangeNumSpec, lagrangeDenSpec, List.filter_cons]
      have : decide (x ≠ share) = true := by simpa using hx
      rw [this]
      simp [mul_assoc]

theorem lagrangeDenSpec_ne_zero (x : F) (S : List F) :
    lagrangeDenSpec x S ≠ 0 := by
  unfold lagrangeDenSpec
  intro h
  rw [List.prod_eq_zero_iff] at h
  obtain ⟨y, hy, hzero⟩ := List.mem_map.mp h
  rw [List.mem_filter] at hy
  have hne : y ≠ x := by simpa using hy.2
  exact hne (sub_eq_zero.mp hzero)

theorem lagrange_eq_spec (x : F) (S : List F) :
    lagrange x S = some (lagrangeNumSpec x S * (lagrangeDenSpec x S)⁻¹) := by
  unfold lagrange
  rw [lagrange_foldl x S 1 1, one_mul, one_mul]
  simp [lagrangeDenSpec_ne_zero x S]

theorem receiveRound2Data_ok_spec (Hped : HashFn F G) (st : ParticipantState F G)
    (d : Round2Data F G) (st' : ParticipantState F G)
    (h : receiveRound2Data Hped st d = .ok st') :
    d.pedersenCommitments.length = st.threshold
    ∧ Hped ((mapLookup d.senderOrdinal st.receivedRound1Data).getD default).senderType
        d.senderOrdinal d.senderId st.threshold d.pedersenCommitments
      = ((mapLookup d.senderOrdinal st.receivedRound1Data).getD default).pedersenCommitmentHash
    ∧ d.secretShare.value • st.messageGenerator + d.blindShare.value • st.blinderGenerator
      = sumOfProducts (st.powersOfI.zip d.pedersenCommitments)
    ∧ st' = { st with
              validParticipantIds :=
                mapInsert d.senderOrdinal d.senderId st.validParticipantIds,
              receivedRound2Data :=
                mapInsert d.senderOrdinal d st.receivedRound2Data } := by
  rw [receiveRound2Data] at h
  by_cases hc1 : Round.three.toNat < st.round.toNat
  · rw [if_pos hc1] at h; exact Except.noConfusion h
  rw [if_neg hc1] at h
  by_cases hc2 : mapContains d.senderOrdinal st.receivedRound2Data = true
  · rw [if_pos hc2] at h; exact Except.noConfusion h
  rw [if_neg hc2] at h
  rcases hcs : checkSendingParticipantId st Round.two d.senderOrdinal d.senderId with e | u
  · rw [hcs] at h; exact Except.noConfusion h
  rw [hcs] at h
  by_cases hc4 : ¬ mapContains d.senderOrdinal st.receivedRound1Data = true
  · rw [if_pos hc4] at h; exact Except.noConfusion h
  rw [if_neg hc4] at h
  by_cases hc5 : d.pedersenCommitments.isEmpty = true
  · rw [if_pos hc5] at h; exact Except.noConfusion h
  rw [if_neg hc5] at h
  by_cases hc6 : d.pedersenCommitments.length ≠ st.threshold
  · rw [if_pos hc6] at h; exact Except.noConfusion h
  rw [if_neg hc6] at h
  by_cases hc7 : d.messageGenerator = 0
  · rw [if_pos hc7] at h; exact Except.noConfusion h
  rw [if_neg hc7] at h
  by_cases hc8 : d.blinderGenerator = 0
  · rw [if_pos hc8] at h; exact Except.noConfusion h
  rw [if_neg hc8] at h
  by_cases hc9 : (d.pedersenCommitments.any fun c => decide (c = 0)) = true
  · rw [if_pos hc9] at h; exact Except.noConfusion h
  rw [if_neg hc9] at h
  by_cases hc10 : Hped ((mapLookup d.senderOrdinal st.receivedRound1Data).getD default).senderType
      d.senderOrdinal d.senderId st.threshold d.pedersenCommitments
    ≠ ((mapLookup d.senderOrdinal st.receivedRound1Data).getD default).pedersenCommitmentHash
  · rw [if_pos hc10] at h; exact Except.noConfusion h
  rw [if_neg hc10] at h
  by_cases hc11 : ¬ (d.secretShare.value • st.messageGenerator
      + d.blindShare.value • st.blinderGenerator
      - sumOfProducts (st.powersOfI.zip d.pedersenCommitments) = 0)
  · rw [if_pos hc11] at h; exact Except.noConfusion h
  rw [if_neg hc11] at h
  cases h
  exact ⟨not_not.mp hc6, not_not.mp hc10, sub_eq_zero.mp (not_not.mp hc11), rfl⟩

theorem receiveRound3Data_ok_spec (Hfeld : HashFn F G) (st : ParticipantState F G)
    (d : Round3Data F G) (st' : ParticipantState F G)
    (h : receiveRound3Data Hfeld st d = .ok st') :
    st.validParticipantIds = d.validParticipantIds
    ∧ Hfeld ((mapLookup d.senderOrdinal st.receivedRound1Data).getD default).senderType
        d.senderOrdinal d.senderId st.threshold d.feldmanCommitments
      = ((mapLookup d.senderOrdinal st.receivedRound1Data).getD default).feldmanCommitmentHash
    ∧ ((mapLookup d.senderOrdinal st.receivedRound2Data).getD default).secretShare.value
        • st.messageGenerator
      = sumOfProducts (st.powersOfI.zip d.feldmanCommitments)
    ∧ st' = { st with
              receivedRound3Data :=
                mapInsert d.senderOrdinal d st.receivedRound3Data } := by
  rw [receiveRound3Data] at h
  by_cases hc1 : Round.four.toNat < st.round.toNat
  · rw [if_pos hc1] at h; exact Except.noConfusion h
  rw [if_neg hc1] at h
  by_cases hc2 : mapContains d.senderOrdinal st.receivedRound3Data = true
  · rw [if_pos hc2] at h; exact Except.noConfusion h
  rw [if_neg hc2] at h
  rcases hcs : checkSendingParticipantId st Round.three d.senderOrdinal d.senderId with e | u
  · rw [hcs] at h; exact Except.noConfusion h
  rw [hcs] at h
  by_cases hc4 : st.validParticipantIds ≠ d.validParticipantIds
  · rw [if_pos hc4] at h; exact Except.noConfusion h
  rw [if_neg hc4] at h
  by_cases hc5 : ¬ mapContains d.senderOrdinal st.validParticipantIds = true
  · rw [if_pos hc5] at h; exact Except.noConfusion h
  rw [if_neg hc5] at h
  by_cases hc6 : ¬ mapContains d.senderOrdinal st.receivedRound1Data = true
  · rw [if_pos hc6] at h; exact Except.noConfusion h
  rw [if_neg hc6] at h
  by_cases hc7 : ¬ mapContains d.senderOrdinal st.receivedRound2Data = true
  · rw [if_pos hc7] at h; exact Except.noConfusion h
  rw [if_neg hc7] at h
  by_cases hc8 : d.feldmanCommitments.isEmpty = true
  · rw [if_pos hc8] at h; exact Except.noConfusion h
  rw [if_neg hc8] at h
  by_cases hc9 : d.feldmanCommitments.length ≠ st.threshold
  · rw [if_pos hc9] at h; exact Except.noConfusion h
  rw [if_neg hc9] at h
  by_cases hc10 : ((d.feldmanCommitments.drop 1).any fun c => decide (c = 0)) = true
  · rw [if_pos hc10] at h; exact Except.noConfusion h
  rw [if_neg hc10] at h
  by_cases hc11 : ¬ (match ((mapLookup d.senderOrdinal st.receivedRound1Data).getD default).senderType with
      | ParticipantType.secret =>
          SecretParticipantImpl.checkFeldmanVerifier (d.feldmanCommitments.getD 0 0)
      | ParticipantType.refresh =>
          RefreshParticipantImpl.checkFeldmanVerifier (d.feldmanCommitments.getD 0 0)) = true
  · rw [if_pos hc11] at h; exact Except.noConfusion h
  rw [if_neg hc11] at h
  by_cases hc12 : Hfeld ((mapLookup d.senderOrdinal st.receivedRound1Data).getD default).senderType
      d.senderOrdinal d.senderId st.threshold d.feldmanCommitments
    ≠ ((mapLookup d.senderOrdinal st.receivedRound1Data).getD default).feldmanCommitmentHash
  · rw [if_pos hc12] at h; exact Except.noConfusion h
  rw [if_neg hc12] at h
  by_cases hc13 : ¬ (((mapLookup d.senderOrdinal st.receivedRound2Data).getD default).secretShare.value
      • st.messageGenerator
      - sumOfProducts (st.powersOfI.zip d.feldmanCommitments) = 0)
  · rw [if_pos hc13] at h; exact Except.noConfusion h
  rw [if_neg hc13] at h
  cases h
  exact ⟨not_not.mp hc4, not_not.mp hc12, sub_eq_zero.mp (not_not.mp hc13), rfl⟩

theorem sumOfProducts_range (f : Nat → F) (cs : List G) :
    sumOfProducts (((List.range cs.length).map f).zip cs)
      = ∑ j ∈ Finset.range cs.length, f j • cs.getD j 0 := by
  induction cs generalizing f with
  | nil => simp [sumOfProducts]
  | cons c cs ih =>
    rw [List.length_cons, List.range_succ_eq_map, Finset.sum_range_succ']
    have h2 := ih (fun j => f (j + 1))
    simp only [sumOfProducts] at h2 ⊢
    simp only [List.map_cons, List.map_map, List.zip_cons_cons, List.map, List.sum_cons,
      Function.comp_def, Nat.succ_eq_add_one, List.getD_cons_succ, List.getD_cons_zero] at h2 ⊢
    simp only [List.zip] at h2
    rw [h2]
    exact add_comm _ _

theorem initParticipant_ok_feldman0 (id : F) (p : Parameters F G)
    (ptype : ParticipantType) (secret blinder : F)
    (secretRandom blinderRandom : List F) (st : ParticipantState F G)
    (h : initParticipant id p ptype secret blinder secretRandom blinderRandom
          = some (.ok st)) :
    st.feldmanVerifierSet.getD 0 0 = secret • p.messageGenerator
    ∧ 1 ≤ p.threshold := by
  rw [initParticipant.eq_def] at h
  by_cases hc1 : p.limit < p.threshold
  · rw [if_pos hc1] at h; simp at h
  rw [if_neg hc1] at h
  by_cases hc2 : p.threshold < 1
  · rw [if_pos hc2] at h; simp at h
  rw [if_neg hc2] at h
  by_cases hcg1 : p.messageGenerator = 0
  · rw [if_pos hcg1] at h; simp at h
  rw [if_neg hcg1] at h
  by_cases hcg2 : p.blinderGenerator = 0
  · rw [if_pos hcg2] at h; simp at h
  rw [if_neg hcg2] at h
  rcases hloop : sharesLoop p id (secret :: secretRandom) (blinder :: blinderRandom)
      p.limit 0 [] [] [] [] 0 with e | r
  · rw [hloop] at h; simp at h
  obtain ⟨ss, bs, allIds, ord⟩ := r
  rw [hloop] at h
  dsimp only [] at h
  by_cases hc3 : ¬ mapContains ord allIds = true
  · rw [if_pos hc3] at h; simp at h
  rw [if_neg hc3] at h
  rcases hpow : computePowersOfI id p.threshold with _ | powers
  · rw [hpow] at h; simp at h
  rw [hpow] at h
  dsimp only [] at h
  split at h
  · simp at h
  simp only [Option.some.injEq, Except.ok.injEq] at h
  subst h
  have ht : 1 ≤ p.threshold := le_of_not_lt hc2
  constructor
  · show (feldmanVerifiers p (secret :: secretRandom) (blinder :: blinderRandom)).getD 0 0
      = secret • p.messageGenerator
    obtain ⟨t', ht'⟩ := Nat.exists_eq_add_of_le ht
    rw [feldmanVerifiers, ht']
    rw [show 1 + t' = t' + 1 by omega, List.range_succ_eq_map]
    simp [List.zip_cons_cons]
  · exact ht

end Lemmas

end GennaroDkg

namespace GennaroDkg

section Lemmas2

variable {F : Type} [Field F] [DecidableEq F]
variable {G : Type} [AddCommGroup G] [Module F G] [DecidableEq G]

theorem exceptIsOk_true_iff {A : Type} (e : Except DkgError A) :
    exceptIsOk e = true ↔ ∃ a, e = .ok a := by
  cases e <;> simp [exceptIsOk]

end Lemmas2

/-! ### Claims -/

section Claims

variable {F : Type} [Field F] [DecidableEq F]
variable {G : Type} [AddCommGroup G] [Module F G] [DecidableEq G]

/-- C1: for every participant state (with the canonical
`powers_of_id = [1, id, …, id^(t-1)]` laid down at construction) and
every round-2 (reveal-and-share) payload that `receive_round2data`
accepts and stores, the Pedersen check holds:
`G_s · secret_share + G_r · blind_share = Σ_{j<t} id^j · pedersen_verifiers[j]`;
and any payload for which this equation fails is rejected with an error
(and, the handler being pure on errors, nothing is stored). -/
theorem c1_round2_pedersen_check (Hped : HashFn F G) (st : ParticipantState F G)
    (d : Round2Data F G)
    (hpow : st.powersOfI = (List.range st.threshold).map fun j => st.id ^ j) :
    (∀ st', receiveRound2Data Hped st d = Except.ok st' →
        d.secretShare.value • st.messageGenerator + d.blindShare.value • st.blinderGenerator
          = ∑ j ∈ Finset.range st.threshold, st.id ^ j • d.pedersenCommitments.getD j 0
        ∧ mapLookup d.senderOrdinal st'.receivedRound2Data = some d)
    ∧ (d.secretShare.value • st.messageGenerator + d.blindShare.value • st.blinderGenerator
          ≠ ∑ j ∈ Finset.range st.threshold, st.id ^ j • d.pedersenCommitments.getD j 0 →
        exceptIsOk (receiveRound2Data Hped st d) = false) := by
  have key : ∀ st', receiveRound2Data Hped st d = Except.ok st' →
      (d.secretShare.value • st.messageGenerator + d.blindShare.value • st.blinderGenerator
        = ∑ j ∈ Finset.range st.threshold, st.id ^ j • d.pedersenCommitments.getD j 0)
      ∧ mapLookup d.senderOrdinal st'.receivedRound2Data = some d := by
    intro st' h
    obtain ⟨hl, hh, hs, hst⟩ := receiveRound2Data_ok_spec Hped st d st' h
    have hsum : sumOfProducts (st.powersOfI.zip d.pedersenCommitments)
        = ∑ j ∈ Finset.range st.threshold, st.id ^ j • d.pedersenCommitments.getD j 0 := by
      rw [hpow, ← hl]
      exact sumOfProducts_range (fun j => st.id ^ j) d.pedersenCommitments
    refine ⟨hs.trans hsum, ?_⟩
    rw [hst]
    exact mapLookup_mapInsert_self d.senderOrdinal d st.receivedRound2Data
  refine ⟨key, ?_⟩
  intro hne
  rcases hok : receiveRound2Data Hped st d with e | st'
  · rfl
  · exact absurd (key st' hok).1 hne

/-- C1 witness: a concrete accepted round-2 payload; the theorem yields
the Pedersen equation for it. -/
theorem c1_round2_pedersen_check_witness :
    exceptIsOk (receiveRound2Data hashSeven stRound2 dataRound2Good) = true
    ∧ dataRound2Good.secretShare.value • stRound2.messageGenerator
        + dataRound2Good.blindShare.value • stRound2.blinderGenerator
      = ∑ j ∈ Finset.range stRound2.threshold,
          stRound2.id ^ j • dataRound2Good.pedersenCommitments.getD j 0 := by
  have hok : exceptIsOk (receiveRound2Data hashSeven stRound2 dataRound2Good) = true := by
    decide
  obtain ⟨st', h⟩ := (exceptIsOk_true_iff _).mp hok
  exact ⟨hok,
    ((c1_round2_pedersen_check hashSeven stRound2 dataRound2Good (by decide)).1 st' h).1⟩

/-- C3: for every scalar `x` and list `S` of distinct scalars,
`Participant::lagrange` returns
`Π_{y ∈ S, y ≠ x} y · (Π_{y ∈ S, y ≠ x} (y − x))⁻¹`, and the inversion
panics (returns `none` here) exactly when that denominator product is
zero — which in a field never happens, every factor being non-zero. -/
theorem c3_lagrange_formula (x : F) (S : List F) (hS : S.Nodup) :
    lagrange x S = some (lagrangeNumSpec x S * (lagrangeDenSpec x S)⁻¹)
    ∧ (lagrange x S = none ↔ lagrangeDenSpec x S = 0) := by
  refine ⟨lagrange_eq_spec x S, ?_, ?_⟩
  · intro h
    rw [lagrange_eq_spec] at h
    exact Option.noConfusion h
  · intro h
    exact absurd h (lagrangeDenSpec_ne_zero x S)

/-- C3 witness: the formula evaluated at `x = 1`, `S = [2, 3]` over
`ZMod 11`: `Λ_1 = (2·3)/((2−1)(3−1)) = 3`. -/
theorem c3_lagrange_formula_witness :
    lagrange (1 : FF) [2, 3]
      = some (lagrangeNumSpec (1 : FF) [2, 3] * (lagrangeDenSpec (1 : FF) [2, 3])⁻¹)
    ∧ lagrange (1 : FF) [2, 3] = some 3 := by
  have h := (c3_lagrange_formula (1 : FF) [2, 3] (by decide)).1
  refine ⟨h, ?_⟩
  rw [h]
  have hnum : lagrangeNumSpec (1 : FF) [2, 3] = 6 := by decide
  have hden : lagrangeDenSpec (1 : FF) [2, 3] = 2 := by decide
  rw [hnum, hden, ZMod.inv_eq_of_mul_eq_one 11 2 6 (by decide)]
  decide

/-- C4 (amended): when the recomputed Pedersen (round-2 receive) or
Feldman (round-3 receive) commitment hash does not equal the hash stored
from the commit round, the payload is rejected with an error — but the
sending peer is *not* removed from `valid_participant_ids`: the handlers
perform no state mutation before an early `return Err`, and
`receive_round3data` never writes `valid_participant_ids` at all (third
conjunct), while in `receive_round2data` the rejected peer was simply
never inserted. -/
theorem c4_commitment_mismatch_rejects (Hped Hfeld : HashFn F G)
    (st2 st3 : ParticipantState F G) (d2 : Round2Data F G) (d3 : Round3Data F G) :
    (Hped ((mapLookup d2.senderOrdinal st2.receivedRound1Data).getD default).senderType
        d2.senderOrdinal d2.senderId st2.threshold d2.pedersenCommitments
      ≠ ((mapLookup d2.senderOrdinal st2.receivedRound1Data).getD default).pedersenCommitmentHash →
      exceptIsOk (receiveRound2Data Hped st2 d2) = false)
    ∧ (Hfeld ((mapLookup d3.senderOrdinal st3.receivedRound1Data).getD default).senderType
        d3.senderOrdinal d3.senderId st3.threshold d3.feldmanCommitments
      ≠ ((mapLookup d3.senderOrdinal st3.receivedRound1Data).getD default).feldmanCommitmentHash →
      exceptIsOk (receiveRound3Data Hfeld st3 d3) = false)
    ∧ (∀ st', receiveRound3Data Hfeld st3 d3 = Except.ok st' →
        st'.validParticipantIds = st3.validParticipantIds) := by
  refine ⟨?_, ?_, ?_⟩
  · intro hne
    rcases hok : receiveRound2Data Hped st2 d2 with e | st'
    · rfl
    · exact absurd (receiveRound2Data_ok_spec Hped st2 d2 st' hok).2.1 hne
  · intro hne
    rcases hok : receiveRound3Data Hfeld st3 d3 with e | st'
    · rfl
    · exact absurd (receiveRound3Data_ok_spec Hfeld st3 d3 st' hok).2.1 hne
  · intro st' hok
    have hst := (receiveRound3Data_ok_spec Hfeld st3 d3 st' hok).2.2.2
    rw [hst]

/-- C4 witness: concrete states in which the recomputed hash (`[9]`)
differs from the committed hash (`[7]`); both receivers reject. -/
theorem c4_commitment_mismatch_rejects_witness :
    exceptIsOk (receiveRound2Data hashNine stRound2 dataRound2Good) = false
    ∧ exceptIsOk (receiveRound3Data hashNine stRound3 dataRound3Good) = false :=
  ⟨(c4_commitment_mismatch_rejects hashNine hashNine stRound2 stRound3
      dataRound2Good dataRound3Good).1 (by decide),
   (c4_commitment_mismatch_rejects hashNine hashNine stRound2 stRound3
      dataRound2Good dataRound3Good).2.1 (by decide)⟩

/-- C4 counterexample: a round-3 payload rejected exactly at the Feldman
commitment-hash check while its sender (ordinal 1) is in
`valid_participant_ids` — and stays there, the rejection not touching the
state; the claim's demanded removal does not happen. -/
theorem c4_counterexample :
    receiveRound3Data hashNine stRound3 dataRound3Good
      = .error (.roundError .three "Feldman commitment hash does not match")
    ∧ dataRound3Good.senderOrdinal = 1
    ∧ mapContains 1 stRound3.validParticipantIds = true := by
  decide

/-- C5 (amended): the round-3 echo mismatch (the peer's
`valid_participant_ids` differs from ours) always makes
`receive_round3data` return an error — but no trap state exists: the
handler mutates nothing on the error path, so the participant state is
unchanged and later calls are processed on their own merits (see the
counterexample, where a subsequent well-formed payload is accepted). -/
theorem c5_echo_mismatch_no_trap (Hfeld : HashFn F G) (st : ParticipantState F G)
    (d : Round3Data F G)
    (hne : st.validParticipantIds ≠ d.validParticipantIds) :
    exceptIsOk (receiveRound3Data Hfeld st d) = false := by
  rcases hok : receiveRound3Data Hfeld st d with e | st'
  · rfl
  · exact absurd (receiveRound3Data_ok_spec Hfeld st d st' hok).1 hne

/-- C5 witness: a concrete echo-mismatching payload is rejected. -/
theorem c5_echo_mismatch_no_trap_witness :
    exceptIsOk (receiveRound3Data hashSeven stRound3 dataRound3Echo) = false :=
  c5_echo_mismatch_no_trap hashSeven stRound3 dataRound3Echo (by decide)

/-- C5 counterexample to the trap-state claim: after the echo-mismatch
error (first conjunct) the state is the unchanged `stRound3` (the
handler returns only the error), and the very next `receive` of a
well-formed round-3 payload on that state succeeds instead of returning
the same error. -/
theorem c5_counterexample :
    exceptIsOk (receiveRound3Data hashSeven stRound3 dataRound3Echo) = false
    ∧ exceptIsOk (receiveRound3Data hashSeven stRound3 dataRound3Good) = true := by
  decide

/-- C6 (amended): `get_public_key` returns `Some` exactly in the terminal
round `Five`, but `get_secret_share` of `participant.rs` returns `Some`
already from round `Two` on; only the older `SecretParticipant` revision
gates the secret share at `Five` as the claim states (third conjunct). -/
theorem c6_terminal_getters (st : ParticipantState F G) :
    ((st.getPublicKey).isSome = true ↔ st.round = Round.five)
    ∧ ((st.getSecretShare).isSome = true ↔ Round.two.toNat ≤ st.round.toNat)
    ∧ (∀ s : F, (SecretParticipantV1.getSecretShare st.round s).isSome = true
        ↔ st.round = Round.five) := by
  refine ⟨?_, ?_, ?_⟩
  · by_cases hr : st.round = Round.five <;>
      simp [ParticipantState.getPublicKey, hr]
  · by_cases hr : Round.two.toNat ≤ st.round.toNat <;>
      simp [ParticipantState.getSecretShare, hr]
  · intro s
    by_cases hr : st.round = Round.five <;>
      simp [SecretParticipantV1.getSecretShare, hr]

/-- C6 counterexample: a state in round `Four` (not terminal) whose
`get_secret_share` already returns `Some` — the claim's "None in every
state before Five" fails on `participant.rs`. -/
theorem c6_counterexample :
    stRound3.round ≠ Round.five ∧ stRound3.getSecretShare ≠ none := by
  decide

/-- C10: `Participant::receive` reads `data[0]` unconditionally — on the
empty slice it panics (`none`); on any non-empty slice it returns a
result (an `InitializationError` for an unknown round tag, a postcard
error for a payload that fails to decode, otherwise the round handler's
result); in particular every tag outside `1..=5` yields the
"Invalid round" initialization error. -/
theorem c10_receive_reads_first_byte (dec : Decoders F G) (Hped Hfeld : HashFn F G)
    (st : ParticipantState F G) (data : List Nat) :
    (data = [] → receive dec Hped Hfeld st data = none)
    ∧ (data ≠ [] → (receive dec Hped Hfeld st data).isSome = true)
    ∧ (∀ b rest, data = b :: rest → b = 0 ∨ 6 ≤ b →
        receive dec Hped Hfeld st data
          = some (.error (.initializationError "Invalid round"))) := by
  refine ⟨?_, ?_, ?_⟩
  · intro h
    subst h
    rfl
  · intro h
    match data with
    | [] => exact absurd rfl h
    | b :: rest => rfl
  · intro b rest hdata hb
    subst hdata
    have htag : Round.tryFromByte b = .error "Invalid round" := by
      rcases hb with hb | hb
      · subst hb; rfl
      · rw [Round.tryFromByte, if_neg (by omega), if_neg (by omega), if_neg (by omega),
          if_neg (by omega), if_neg (by omega)]
    show some _ = some _
    rw [htag]

/-- C10 witness: the empty slice panics; a tagged slice gets an answer;
tag 9 is the unknown-round error. -/
theorem c10_receive_reads_first_byte_witness :
    receive decNone hashSeven hashSeven stRound3 [] = none
    ∧ (receive decNone hashSeven hashSeven stRound3 [2]).isSome = true
    ∧ receive decNone hashSeven hashSeven stRound3 [9]
        = some (.error (.initializationError "Invalid round")) :=
  ⟨(c10_receive_reads_first_byte decNone hashSeven hashSeven stRound3 []).1 rfl,
   (c10_receive_reads_first_byte decNone hashSeven hashSeven stRound3 [2]).2.1 (by decide),
   (c10_receive_reads_first_byte decNone hashSeven hashSeven stRound3 [9]).2.2 9 [] rfl
     (Or.inr (by omega))⟩

/-- C2 (amended): for every successful `Participant::with_secret` call,
the constant term of the locally-dealt secret polynomial — observable as
`feldman_verifier_set[0] = G_s · constant` — equals
`y · Λ_y(shares_ids)`: the Lagrange coefficient is evaluated at the share
*value* `y` passed as the `share` argument, not at the old evaluation
point `x`, which `with_secret` never receives. -/
theorem c2_with_secret_dealt_secret (id : F) (p : Parameters F G)
    (ptype : ParticipantType) (y blinder : F) (sharesIds : List F)
    (sRand bRand : List F) (st : ParticipantState F G)
    (h : withSecret id p ptype y sharesIds blinder sRand bRand = some (Except.ok st)) :
    st.feldmanVerifierSet.getD 0 0
      = (y * (lagrangeNumSpec y sharesIds * (lagrangeDenSpec y sharesIds)⁻¹))
          • p.messageGenerator := by
  rw [withSecret.eq_def, lagrange_eq_spec] at h
  exact (initParticipant_ok_feldman0 id p ptype
    (y * (lagrangeNumSpec y sharesIds * (lagrangeDenSpec y sharesIds)⁻¹))
    blinder sRand bRand st h).1

theorem isOkSome_true_iff {A : Type} (o : Option (Except DkgError A)) :
    isOkSome o = true ↔ ∃ a, o = some (.ok a) := by
  rcases o with _ | e
  · simp [isOkSome]
  · cases e <;> simp [isOkSome]

theorem withSecret_concrete_eq :
    withSecret (F := FF) (G := FF) 1 paramsTwoOfTwo .secret 5 [2, 3] 1 [1] [1]
      = initParticipant 1 paramsTwoOfTwo .secret 5 1 [1] [1] := by
  have hlag : lagrange (5 : FF) [2, 3] = some 1 := by
    rw [lagrange_eq_spec]
    have hnum : lagrangeNumSpec (5 : FF) [2, 3] = 6 := by decide
    have hden : lagrangeDenSpec (5 : FF) [2, 3] = 6 := by decide
    rw [hnum, hden, ZMod.inv_eq_of_mul_eq_one 11 6 2 (by decide)]
    decide
  rw [withSecret.eq_def, hlag]
  norm_num

/-- C2 witness: the concrete resharing call `with_secret(id = 1,
share = 5, shares_ids = [2, 3])` over `ZMod 11` succeeds, and its dealt
constant term is `5 · Λ_5([2, 3])` (which evaluates to `5`). -/
theorem c2_with_secret_dealt_secret_witness :
    okFeldman0 (withSecret (F := FF) (G := FF) 1 paramsTwoOfTwo .secret 5 [2, 3] 1 [1] [1])
      = some ((5 * (lagrangeNumSpec (5 : FF) [2, 3] * (lagrangeDenSpec (5 : FF) [2, 3])⁻¹))
          • paramsTwoOfTwo.messageGenerator) := by
  have hsome : isOkSome (initParticipant (F := FF) (G := FF) 1 paramsTwoOfTwo
      .secret 5 1 [1] [1]) = true := by decide
  obtain ⟨st, hst⟩ := (isOkSome_true_iff _).mp hsome
  have hws : withSecret (F := FF) (G := FF) 1 paramsTwoOfTwo .secret 5 [2, 3] 1 [1] [1]
      = some (.ok st) := by rw [withSecret_concrete_eq, hst]
  have := c2_with_secret_dealt_secret 1 paramsTwoOfTwo .secret 5 1 [2, 3] [1] [1] st hws
  rw [hws]
  show some (st.feldmanVerifierSet.getD 0 0) = _
  rw [this]

/-- C2 counterexample to the claim as stated: for the previous-run share
`(x, y) = (1, 5)` and new ids `[2, 3]`, the dealt constant term is `5`
(the code's `y · Λ_y`), not `y · Λ_x([2, 3]) = 5 · 3 = 4` demanded by the
claim with the coefficient at the old point `x = 1`. -/
theorem c2_counterexample :
    isOkSome (withSecret (F := FF) (G := FF) 1 paramsTwoOfTwo .secret 5 [2, 3] 1 [1] [1]) = true
    ∧ okFeldman0 (withSecret (F := FF) (G := FF) 1 paramsTwoOfTwo .secret 5 [2, 3] 1 [1] [1])
      ≠ some ((5 * (lagrangeNumSpec (1 : FF) [2, 3] * (lagrangeDenSpec (1 : FF) [2, 3])⁻¹))
          • paramsTwoOfTwo.messageGenerator) := by
  constructor
  · rw [withSecret_concrete_eq]
    decide
  · rw [withSecret_concrete_eq]
    have hval : okFeldman0 (initParticipant (F := FF) (G := FF) 1 paramsTwoOfTwo
        .secret 5 1 [1] [1]) = some 5 := by decide
    rw [hval]
    have hnum : lagrangeNumSpec (1 : FF) [2, 3] = 6 := by decide
    have hden : lagrangeDenSpec (1 : FF) [2, 3] = 2 := by decide
    rw [hnum, hden, ZMod.inv_eq_of_mul_eq_one 11 2 6 (by decide)]
    decide

/-- C7 (amended): `Participant::initialize` fails with an
`InitializationError` whenever `t > n`, `t < 1`, or either generator is
the identity — these four checks, in this order, are all the parameter
validation there is; in particular *no* check compares the two
generators (see the counterexample, where equal non-identity generators
are accepted). -/
theorem c7_construction_checks (id secret blinder : F) (p : Parameters F G)
    (ptype : ParticipantType) (sRand bRand : List F) :
    (p.limit < p.threshold →
      initParticipant id p ptype secret blinder sRand bRand
        = some (.error (.initializationError "Threshold greater than limit")))
    ∧ (¬ p.limit < p.threshold → p.threshold < 1 →
      initParticipant id p ptype secret blinder sRand bRand
        = some (.error (.initializationError "Threshold less than 1")))
    ∧ (¬ p.limit < p.threshold → ¬ p.threshold < 1 → p.messageGenerator = 0 →
      initParticipant id p ptype secret blinder sRand bRand
        = some (.error (.initializationError "Invalid message generator")))
    ∧ (¬ p.limit < p.threshold → ¬ p.threshold < 1 → ¬ p.messageGenerator = 0 →
        p.blinderGenerator = 0 →
      initParticipant id p ptype secret blinder sRand bRand
        = some (.error (.initializationError "Invalid blinder generator"))) := by
  refine ⟨?_, ?_, ?_, ?_⟩
  · intro h1
    rw [initParticipant.eq_def, if_pos h1]
  · intro h1 h2
    rw [initParticipant.eq_def, if_neg h1, if_pos h2]
  · intro h1 h2 h3
    rw [initParticipant.eq_def, if_neg h1, if_neg h2, if_pos h3]
  · intro h1 h2 h3 h4
    rw [initParticipant.eq_def, if_neg h1, if_neg h2, if_neg h3, if_pos h4]

/-- C7 witness: the threshold and generator checks firing on concrete
bad parameter sets. -/
theorem c7_construction_checks_witness :
    initParticipant (F := FF) (G := FF) 1 paramsBadThreshold .secret 1 1 [1, 1] [1, 1]
      = some (.error (.initializationError "Threshold greater than limit"))
    ∧ initParticipant (F := FF) (G := FF) 1 paramsZeroGen .secret 1 1 [1] [1]
      = some (.error (.initializationError "Invalid message generator")) :=
  ⟨(c7_construction_checks 1 1 1 paramsBadThreshold .secret [1, 1] [1, 1]).1 (by decide),
   (c7_construction_checks 1 1 1 paramsZeroGen .secret [1] [1]).2.2.1
     (by decide) (by decide) (by decide)⟩

/-- C7 counterexample to the claim as stated: a parameter set whose
message generator *equals* its blinder generator (both non-identity)
passes every construction-time check — the claimed
`G_s = G_r ⇒ failure` check does not exist in the code. -/
theorem c7_counterexample :
    paramsTwoOfTwo.messageGenerator = paramsTwoOfTwo.blinderGenerator
    ∧ paramsTwoOfTwo.messageGenerator ≠ 0
    ∧ isOkSome (initParticipant (F := FF) (G := FF) 1 paramsTwoOfTwo .secret 1 1 [1] [1])
        = true := by
  decide

/-- C8: at the boundary `t = 1, n = 1` (valid per the claim and per the
code's own `threshold < 1` guard) `Participant::initialize` panics:
`powers_of_i` has length `threshold = 1` and the unconditional
`powers_of_i[1] = id` write is out of bounds — construction never
succeeds, against the claim (and the spec's `t = 1, n = 1` boundary
requirement).  With `t ≥ 2` the same code builds the correct power
vector `[1, id, id², …]` (second conjunct). -/
theorem c8_threshold_one_panics :
    initParticipant (F := FF) (G := FF) 1 paramsOneOfOne .secret 5 7 [] [] = none
    ∧ computePowersOfI (3 : FF) 4 = some [1, 3, 9, 5]
    ∧ computePowersOfI (3 : FF) 1 = none := by
  decide

/-- C9: the non-human-readable vector-of-group-elements codec does not
round-trip: encoding the singleton vector `[5]` (32-byte element
encoding) yields 33 bytes, and `deserialize_g_vec` panics on any stream
longer than `Uint::MAX_BYTES = 19` bytes (its prefix loop copies the
whole stream into the 19-byte buffer), so decode(encode([5])) is a
panic, not `[5]`.  Only the empty vector survives the round trip (third
conjunct). -/
theorem c9_gvec_roundtrip_fails :
    (deserializeGVec uintPeekC uintTryFromC 32
        (serializeGVec uintEncC gReprC [(5 : FF)]) : Option (Except Unit (List FF))) = none
    ∧ (serializeGVec uintEncC gReprC [(5 : FF)]).length = 33
    ∧ (deserializeGVec uintPeekC uintTryFromC 32
        (serializeGVec uintEncC gReprC ([] : List FF)) : Option (Except Unit (List FF)))
      = some (.ok []) := by
  decide

end Claims

end GennaroDkg
